import Mathlib

/-!
# Verification of the travelit place-name / offer pipeline

Shallow embedding of the core helper functions of `src/travelit.py`:

* `sanitize_place_name`   (travelit.py lines 44-51)
* `get_iata_code`         (travelit.py lines 53-75)
* `parse_flight_offers`   (travelit.py lines 77-102)
* `parse_hotel_offers`    (travelit.py lines 128-165)
* `book_hotel_offer`      (travelit.py lines 167-179)
* the booking UI action and its session state (travelit.py lines 325-389)

JSON values from the external travel service are modelled by the inductive
type `Json`.  Python's `dict.get(key, default)` is only defined on `dict`s;
calling it on anything else raises `AttributeError`, and iterating a
non-list raises or misbehaves.  The embedding therefore returns
`Option` results from the parsing functions: `none` models an uncaught
Python exception, `some` the normal return value.  External network calls
are passed in as explicit oracle functions returning `Except String Json`,
where `.error msg` models the SDK raising `ResponseError(msg)`.
-/

/-- JSON values (floats are not needed by any claim; numbers are `Int`). -/
inductive Json where
  | null : Json
  | bool : Bool → Json
  | num : Int → Json
  | str : String → Json
  | arr : List Json → Json
  | obj : List (String × Json) → Json

/-- Python `j.get(k, d)` as a total function: on a non-dict it returns the
default instead of raising.  Used only to *state* properties of values that
the parsers have already established to be dicts; the parsers themselves
model the raising behaviour via `Option`. -/
def jGetD (j : Json) (k : String) (d : Json) : Json :=
  match j with
  | .obj fs => (fs.lookup k).getD d
  | _ => d

/-- The characters removed by `re.sub(r'[\"\x27\x7b\x7d<>]', '', ...)` in
`sanitize_place_name`: double quote, apostrophe, both braces and both
angle brackets. -/
def isBadChar (c : Char) : Bool :=
  c = Char.ofNat 34 || c = Char.ofNat 39 || c = Char.ofNat 123 ||
  c = Char.ofNat 125 || c = '<' || c = '>'

/-- Python `str.strip()` on a list of characters: drop whitespace from both
ends. -/
def stripChars (l : List Char) : List Char :=
  ((l.dropWhile Char.isWhitespace).reverse.dropWhile Char.isWhitespace).reverse

/-- travelit.py lines 44-51: `place_name.strip()` followed by
`re.sub(r'[\"\x27\x7b\x7d<>]', '', place_name)` (strip first, then remove the
six characters; `re.sub` with an empty replacement deletes every match,
i.e. it keeps exactly the non-matching characters in order). -/
def sanitize_place_name (s : String) : String :=
  String.mk ((stripChars s.data).filter (fun c => !(isBadChar c)))

/-- travelit.py lines 53-75.  The oracle `svc` models
`amadeus_client.reference_data.locations.get(keyword, subType)`:
`.ok data` is `response.data`, `.error e` a raised `ResponseError`
(the function also catches every other exception and returns `None`).
The second component of the result records the network calls issued
(keyword, subType), so that "no network call" is expressible.
`none` models Python `None`; a present `"iataCode"` whose value is JSON
null is also returned as Python `None`. -/
def get_iata_code (svc : String → String → Except String Json)
    (place_name : String) (sub_type : String) :
    Option Json × List (String × String) :=
  let clean := sanitize_place_name place_name
  if clean = "" then (none, [])
  else
    match svc clean sub_type with
    | .error _ => (none, [(clean, sub_type)])
    | .ok data =>
      (match data with
       | .arr (first :: _) =>
         (match first with
          | .obj fs =>
            (match fs.lookup "iataCode" with
             | some .null => none
             | some v => some v
             | none => none)
          | _ => none)
       | _ => none,
       [(clean, sub_type)])

/-- One row of the flight DataFrame built at travelit.py lines 94-101. -/
structure FlightRow where
  airline : Json
  departureAirport : Json
  departureTime : Json
  arrivalAirport : Json
  arrivalTime : Json
  totalPrice : Json

/-- The row travelit.py lines 85-101 builds for one segment, given the
offer-level `total_price`, as a total function of the segment (valid
whenever the segment and its `departure`/`arrival` values are dicts). -/
def mkFlightRow (tp : Json) (seg : Json) : FlightRow :=
  { airline := jGetD seg "carrierCode" (.str "N/A")
    departureAirport := jGetD (jGetD seg "departure" (.obj [])) "iataCode" (.str "N/A")
    departureTime := jGetD (jGetD seg "departure" (.obj [])) "at" (.str "N/A")
    arrivalAirport := jGetD (jGetD seg "arrival" (.obj [])) "iataCode" (.str "N/A")
    arrivalTime := jGetD (jGetD seg "arrival" (.obj [])) "at" (.str "N/A")
    totalPrice := tp }

/-- `offer.get("price", \x7b\x7d).get("total", "N/A")` (travelit.py line 80)
as a total function. -/
def flightPriceOf (o : Json) : Json :=
  jGetD (jGetD o "price" (.obj [])) "total" (.str "N/A")

/-- Map an `Option`-returning function over a list, aborting (like an
uncaught Python exception) on the first `none`. -/
def mapO (f : α → Option β) : List α → Option (List β)
  | [] => some []
  | a :: l =>
    match f a with
    | some b =>
      match mapO f l with
      | some l' => some (b :: l')
      | none => none
    | none => none

/-- travelit.py lines 84-101, body of the innermost loop: build the row for
one segment.  `none` models the `AttributeError` Python raises when the
segment or its `departure`/`arrival` values are not dicts. -/
def parse_segment (tp : Json) (seg : Json) : Option FlightRow :=
  match seg with
  | .obj ss =>
    match (ss.lookup "departure").getD (.obj []), (ss.lookup "arrival").getD (.obj []) with
    | .obj dd, .obj aa =>
      some { airline := (ss.lookup "carrierCode").getD (.str "N/A")
             departureAirport := (dd.lookup "iataCode").getD (.str "N/A")
             departureTime := (dd.lookup "at").getD (.str "N/A")
             arrivalAirport := (aa.lookup "iataCode").getD (.str "N/A")
             arrivalTime := (aa.lookup "at").getD (.str "N/A")
             totalPrice := tp }
    | _, _ => none
  | _ => none

/-- travelit.py lines 82-101: `itinerary.get("segments", [])` and the inner
segment loop. -/
def parse_itinerary (tp : Json) (itin : Json) : Option (List FlightRow) :=
  match itin with
  | .obj its =>
    match (its.lookup "segments").getD (.arr []) with
    | .arr segs => mapO (parse_segment tp) segs
    | _ => none
  | _ => none

/-- travelit.py lines 79-101, body of the outer loop for one flight offer:
offer-level total price, then one row per segment of every itinerary. -/
def parse_one_flight_offer (offer : Json) : Option (List FlightRow) :=
  match offer with
  | .obj fs =>
    match (fs.lookup "price").getD (.obj []) with
    | .obj ps =>
      match (fs.lookup "itineraries").getD (.arr []) with
      | .arr its =>
        match mapO (parse_itinerary ((ps.lookup "total").getD (.str "N/A"))) its with
        | some rss => some rss.flatten
        | none => none
      | _ => none
    | _ => none
  | _ => none

/-- travelit.py lines 77-102, `parse_flight_offers` (the spec's
`normalizeFlights`): the returned DataFrame is modelled by its list of
rows, in append order. -/
def parse_flight_offers (d : Json) : Option (List FlightRow) :=
  match d with
  | .arr offers =>
    match mapO parse_one_flight_offer offers with
    | some rss => some rss.flatten
    | none => none
  | _ => none

/-- The list of segments of one flight offer, across all its itineraries in
order — the spec's "S total segments".  Taken from the same source loops
(lines 81-84), without building rows. -/
def itinerary_segments (itin : Json) : Option (List Json) :=
  match itin with
  | .obj its =>
    match (its.lookup "segments").getD (.arr []) with
    | .arr segs => some segs
    | _ => none
  | _ => none

/-- All segments of one offer (concatenation over its itineraries). -/
def flight_segments (offer : Json) : Option (List Json) :=
  match offer with
  | .obj fs =>
    match (fs.lookup "itineraries").getD (.arr []) with
    | .arr its =>
      match mapO itinerary_segments its with
      | some segss => some segss.flatten
      | none => none
    | _ => none
  | _ => none

/-- One row of the hotel-offers DataFrame built at travelit.py
lines 150-160.  `index` is the Python `"Index"` column (`idx_counter`). -/
structure HotelRow where
  index : Nat
  hotelName : Json
  cityCode : Json
  offerId : Json
  roomType : Json
  roomDescription : Json
  checkIn : Json
  checkOut : Json
  totalPrice : Json

/-- `offer.get("id", "N/A")` (travelit.py line 143) as a total function. -/
def offerIdOf (o : Json) : Json :=
  jGetD o "id" (.str "N/A")

/-- The row travelit.py lines 143-160 builds for one hotel offer, as a
total function (valid whenever the offer and its nested `room`,
`room.description` and `price` values are dicts).  Note the default for
the room description (line 145) is the empty string, not `"N/A"`. -/
def mkHotelRow (hn cc : Json) (i : Nat) (o : Json) : HotelRow :=
  { index := i
    hotelName := hn
    cityCode := cc
    offerId := jGetD o "id" (.str "N/A")
    roomType := jGetD (jGetD o "room" (.obj [])) "type" (.str "N/A")
    roomDescription := jGetD (jGetD (jGetD o "room" (.obj [])) "description" (.obj [])) "text" (.str "")
    checkIn := jGetD o "checkInDate" (.str "N/A")
    checkOut := jGetD o "checkOutDate" (.str "N/A")
    totalPrice := jGetD (jGetD o "price" (.obj [])) "total" (.str "N/A") }

/-- travelit.py lines 142-162, body of the inner loop for one offer at
index `i`: the DataFrame row and the `offer_map` entry
`(i, (offer_id, offer))` — the entry stores the *original* `offer` value.
`none` models the `AttributeError` on a non-dict offer / room /
description / price value. -/
def parse_one_offer (hn cc : Json) (i : Nat) (o : Json) :
    Option (HotelRow × (Nat × Json × Json)) :=
  match o with
  | .obj fs =>
    match (fs.lookup "room").getD (.obj []) with
    | .obj rs =>
      match (rs.lookup "description").getD (.obj []) with
      | .obj ds =>
        match (fs.lookup "price").getD (.obj []) with
        | .obj ps =>
          some ({ index := i
                  hotelName := hn
                  cityCode := cc
                  offerId := (fs.lookup "id").getD (.str "N/A")
                  roomType := (rs.lookup "type").getD (.str "N/A")
                  roomDescription := (ds.lookup "text").getD (.str "")
                  checkIn := (fs.lookup "checkInDate").getD (.str "N/A")
                  checkOut := (fs.lookup "checkOutDate").getD (.str "N/A")
                  totalPrice := (ps.lookup "total").getD (.str "N/A") },
                (i, (fs.lookup "id").getD (.str "N/A"), o))
        | _ => none
      | _ => none
    | _ => none
  | _ => none

/-- The inner `for offer in hotel_offer.get("offers", [])` loop
(travelit.py lines 142-162), threading `idx_counter` from `start`. -/
def parse_offers_loop (hn cc : Json) (start : Nat) (offs : List Json) :
    Option (List HotelRow × List (Nat × Json × Json)) :=
  match offs with
  | [] => some ([], [])
  | o :: rest =>
    match parse_one_offer hn cc start o with
    | some (row, e) =>
      match parse_offers_loop hn cc (start + 1) rest with
      | some (rows, es) => some (row :: rows, e :: es)
      | none => none
    | none => none

/-- travelit.py lines 138-142: `hotel_offer.get("hotel", \x7b\x7d)`, the
hotel name and city code, and `hotel_offer.get("offers", [])`. -/
def hotelHeader (h : Json) : Option (Json × Json × List Json) :=
  match h with
  | .obj hs =>
    match (hs.lookup "hotel").getD (.obj []) with
    | .obj his =>
      match (hs.lookup "offers").getD (.arr []) with
      | .arr offs =>
        some ((his.lookup "name").getD (.str "N/A"),
              (his.lookup "cityCode").getD (.str "N/A"), offs)
      | _ => none
    | _ => none
  | _ => none

/-- The outer `for hotel_offer in hotel_offers_data` loop (travelit.py
lines 137-162), threading `idx_counter` from `start`. -/
def parse_hotels_loop (start : Nat) (hs : List Json) :
    Option (List HotelRow × List (Nat × Json × Json)) :=
  match hs with
  | [] => some ([], [])
  | h :: rest =>
    match hotelHeader h with
    | some (hn, cc, offs) =>
      match parse_offers_loop hn cc start offs with
      | some (rows1, es1) =>
        match parse_hotels_loop (start + offs.length) rest with
        | some (rows2, es2) => some (rows1 ++ rows2, es1 ++ es2)
        | none => none
      | none => none
    | none => none

/-- travelit.py lines 128-165, `parse_hotel_offers` (the spec's
`normalizeHotelOffers`): returns the DataFrame rows and the offer map,
the latter modelled as the association list of its insertions
`(idx_counter, (offer_id, offer))` in order. -/
def parse_hotel_offers (d : Json) : Option (List HotelRow × List (Nat × Json × Json)) :=
  match d with
  | .arr hs => parse_hotels_loop 0 hs
  | _ => none

/-- All offers of the input in traversal order, each tagged with its
hotel's name and city code — the concatenation of the per-hotel `offers`
lists, so its length is the spec's Σoᵢ.  Taken from the same source loops
as `parse_hotel_offers`, without building rows. -/
def taggedOffers_loop (hs : List Json) : Option (List (Json × Json × Json)) :=
  match hs with
  | [] => some []
  | h :: rest =>
    match hotelHeader h with
    | some (hn, cc, offs) =>
      match taggedOffers_loop rest with
      | some more => some ((offs.map (fun o => (hn, cc, o))) ++ more)
      | none => none
    | none => none

/-- Tagged offer list of a whole hotel-offers input. -/
def taggedOffers (d : Json) : Option (List (Json × Json × Json)) :=
  match d with
  | .arr hs => taggedOffers_loop hs
  | _ => none

/-- travelit.py lines 168-174: the booking payload
`data: offerId, guests: [traveler_info], payments: [payment_info]`. -/
def mkBookingPayload (offer_id traveler_info payment_info : Json) : Json :=
  .obj [("data", .obj [("offerId", offer_id),
                       ("guests", .arr [traveler_info]),
                       ("payments", .arr [payment_info])])]

/-- travelit.py lines 167-179, `book_hotel_offer`.  The oracle `post`
models `amadeus.booking.hotel_bookings.post`: `.ok data` is
`response.data`, `.error e` a raised `ResponseError`, which the function
catches and converts into the dict `\x7b"error": str(e)\x7d`.  The return
type is a plain `Json` value: the function never raises. -/
def book_hotel_offer (post : Json → Except String Json)
    (offer_id traveler_info payment_info : Json) : Json :=
  match post (mkBookingPayload offer_id traveler_info payment_info) with
  | .ok data => data
  | .error e => .obj [("error", .str e)]

/-- Whether a result value carries a top-level `"error"` key — the test the
spec tells callers to use to distinguish success from failure. -/
def hasErrorKey (j : Json) : Bool :=
  match j with
  | .obj fs => (fs.lookup "error").isSome
  | _ => false

/-- The two `st.session_state` slots written by the hotel-offer search
(travelit.py lines 327-328) and read by the booking section
(lines 344-345): the displayed rows and the offer map. -/
structure SessionState where
  selected_hotel_offers_df : Option (List HotelRow)
  selected_hotel_offers_map : Option (List (Nat × Json × Json))

/-- travelit.py lines 327-328: a successful hotel-offer search stores the
fresh DataFrame and offer map, replacing (not merging) any previous ones. -/
def store_offers (s : SessionState) (df : List HotelRow)
    (omap : List (Nat × Json × Json)) : SessionState :=
  { s with selected_hotel_offers_df := some df,
           selected_hotel_offers_map := some omap }

/-- travelit.py line 385: `offer_id, _ = offers_map[selected_offer_idx]` —
a Python dict *subscript*, which raises `KeyError` on an absent key.
`.error "KeyError"` models that uncaught exception; `.ok` the found
`(offer_id, offer)` pair. -/
def offers_map_subscript (m : List (Nat × Json × Json)) (i : Nat) :
    Except String (Json × Json) :=
  match m.lookup i with
  | some v => .ok v
  | none => .error "KeyError"

/-- travelit.py lines 341-389, the booking UI action: read the offer map
from the session state (the `else` branch requires it present), subscript
it with the selected index, submit the booking, and display the response.
No session-state slot is written, so the resulting state is returned
unchanged alongside the displayed booking response. -/
def book_action (post : Json → Except String Json) (s : SessionState)
    (idx : Nat) (traveler payment : Json) :
    Except String (Json × SessionState) :=
  match s.selected_hotel_offers_map with
  | none => .error "no offers fetched"
  | some m =>
    match offers_map_subscript m idx with
    | .error e => .error e
    | .ok (offer_id, _) =>
      .ok (book_hotel_offer post offer_id traveler payment, s)

/-- `j` is a JSON object. -/
def isObjJ (j : Json) : Bool :=
  match j with
  | .obj _ => true
  | _ => false

/-- Shape under which one hotel offer parses without failure: a dict whose
`room` value (if present) is a dict, whose `room.description` value (if
present) is a dict, and whose `price` value (if present) is a dict —
every *absent* field is fine. -/
def shapedOffer (o : Json) : Bool :=
  match o with
  | .obj fs =>
    isObjJ ((fs.lookup "room").getD (.obj [])) &&
    isObjJ (jGetD ((fs.lookup "room").getD (.obj [])) "description" (.obj [])) &&
    isObjJ ((fs.lookup "price").getD (.obj []))
  | _ => false

/-- Shape under which one hotel entry parses without failure. -/
def shapedHotel (h : Json) : Bool :=
  match h with
  | .obj hs =>
    isObjJ ((hs.lookup "hotel").getD (.obj [])) &&
    (match (hs.lookup "offers").getD (.arr []) with
     | .arr offs => offs.all shapedOffer
     | _ => false)
  | _ => false

/-- Shape under which a hotel-offers input parses without failure. -/
def shapedHotelsInput (d : Json) : Bool :=
  match d with
  | .arr hs => hs.all shapedHotel
  | _ => false

/-- Shape under which one flight segment parses without failure. -/
def shapedSegment (s : Json) : Bool :=
  match s with
  | .obj ss =>
    isObjJ ((ss.lookup "departure").getD (.obj [])) &&
    isObjJ ((ss.lookup "arrival").getD (.obj []))
  | _ => false

/-- Shape under which one itinerary parses without failure. -/
def shapedItinerary (it : Json) : Bool :=
  match it with
  | .obj its =>
    match (its.lookup "segments").getD (.arr []) with
    | .arr segs => segs.all shapedSegment
    | _ => false
  | _ => false

/-- Shape under which one flight offer parses without failure. -/
def shapedFlightOffer (o : Json) : Bool :=
  match o with
  | .obj fs =>
    isObjJ ((fs.lookup "price").getD (.obj [])) &&
    (match (fs.lookup "itineraries").getD (.arr []) with
     | .arr its => its.all shapedItinerary
     | _ => false)
  | _ => false

/-- Shape under which a flight-offers input parses without failure. -/
def shapedFlightsInput (d : Json) : Bool :=
  match d with
  | .arr offers => offers.all shapedFlightOffer
  | _ => false

/-- Index a list from `n` upward: the `idx_counter` view of a list. -/
def zipIdxFrom (n : Nat) : List α → List (Nat × α)
  | [] => []
  | a :: l => (n, a) :: zipIdxFrom (n + 1) l

/-! ## Concrete example inputs (used by the witnesses below) -/

/-- A fully populated hotel offer. -/
def exOffer1 : Json :=
  .obj [("id", .str "OF1"),
        ("price", .obj [("total", .str "100.00")]),
        ("room", .obj [("type", .str "DBL"),
                       ("description", .obj [("text", .str "Nice room")])]),
        ("checkInDate", .str "2025-09-01"),
        ("checkOutDate", .str "2025-09-03")]

/-- A hotel offer with every optional field absent. -/
def exOffer2 : Json := .obj []

/-- A hotel offer with only an id. -/
def exOffer3 : Json := .obj [("id", .str "OF3")]

/-- Example hotel-offers response: two hotels with 1 and 2 offers
(the second hotel has no `hotel` info at all). -/
def exHotels : Json :=
  .arr [.obj [("hotel", .obj [("name", .str "Hotel A"), ("cityCode", .str "PAR")]),
              ("offers", .arr [exOffer1])],
        .obj [("offers", .arr [exOffer2, exOffer3])]]

/-- The rows `parse_hotel_offers exHotels` produces. -/
def exHotelRows : List HotelRow :=
  [mkHotelRow (.str "Hotel A") (.str "PAR") 0 exOffer1,
   mkHotelRow (.str "N/A") (.str "N/A") 1 exOffer2,
   mkHotelRow (.str "N/A") (.str "N/A") 2 exOffer3]

/-- The offer map `parse_hotel_offers exHotels` produces. -/
def exHotelMap : List (Nat × Json × Json) :=
  [(0, .str "OF1", exOffer1), (1, .str "N/A", exOffer2), (2, .str "OF3", exOffer3)]

/-- A fully populated flight segment. -/
def exSeg1 : Json :=
  .obj [("carrierCode", .str "AA"),
        ("departure", .obj [("iataCode", .str "JFK"), ("at", .str "2025-09-01T08:00")]),
        ("arrival", .obj [("iataCode", .str "ORD"), ("at", .str "2025-09-01T10:00")])]

/-- A flight segment with every optional field absent. -/
def exSeg2 : Json := .obj []

/-- A flight offer priced 500.00 with two itineraries holding 1 and 2
segments. -/
def exFlight1 : Json :=
  .obj [("price", .obj [("total", .str "500.00")]),
        ("itineraries", .arr [.obj [("segments", .arr [exSeg1])],
                              .obj [("segments", .arr [exSeg2, exSeg1])]])]

/-- Example flight-offers response with the single offer `exFlight1`. -/
def exFlights : Json := .arr [exFlight1]

/-- The rows `parse_flight_offers exFlights` produces. -/
def exFlightRows : List FlightRow :=
  [mkFlightRow (.str "500.00") exSeg1,
   mkFlightRow (.str "500.00") exSeg2,
   mkFlightRow (.str "500.00") exSeg1]

/-- A location-lookup oracle whose first result has no `iataCode` but whose
second result does. -/
def exLocSvc : String → String → Except String Json :=
  fun _ _ => .ok (.arr [.obj [("name", .str "Paris")],
                        .obj [("iataCode", .str "PAR")]])

/-- A location-lookup oracle that always succeeds with a usable first
result. -/
def exLocSvcGood : String → String → Except String Json :=
  fun _ _ => .ok (.arr [.obj [("iataCode", .str "JFK")]])

/-- A booking oracle that always fails with a transport error. -/
def exPostFail : Json → Except String Json :=
  fun _ => .error "[500] transport error"

/-- A session state holding the example search results. -/
def exSession : SessionState :=
  { selected_hotel_offers_df := some exHotelRows,
    selected_hotel_offers_map := some exHotelMap }

/-- Offer map of a later, smaller search (replaces `exHotelMap`). -/
def exNewMap : List (Nat × Json × Json) := [(0, .str "OF9", exOffer3)]

/-- Rows of that later search. -/
def exNewRows : List HotelRow := [mkHotelRow (.str "Hotel B") (.str "NYC") 0 exOffer3]

/-! ## Generic helper lemmas -/

theorem mapO_length {f : α → Option β} {l : List α} {l' : List β}
    (h : mapO f l = some l') : l'.length = l.length := by
  induction l generalizing l' with
  | nil =>
    simp only [mapO, Option.some.injEq] at h
    subst h; rfl
  | cons a t ih =>
    simp only [mapO] at h
    cases hfa : f a with
    | none => simp [hfa] at h
    | some b =>
      simp only [hfa] at h
      cases hm : mapO f t with
      | none => simp [hm] at h
      | some t' =>
        simp only [hm, Option.some.injEq] at h
        subst h
        simp [ih hm]

theorem mapO_getElem? {f : α → Option β} {l : List α} {l' : List β}
    (h : mapO f l = some l') :
    ∀ (i : Nat) (a : α), l[i]? = some a → ∃ b, l'[i]? = some b ∧ f a = some b := by
  induction l generalizing l' with
  | nil => intro i a ha; simp at ha
  | cons x t ih =>
    simp only [mapO] at h
    cases hfa : f x with
    | none => simp [hfa] at h
    | some b =>
      simp only [hfa] at h
      cases hm : mapO f t with
      | none => simp [hm] at h
      | some t' =>
        simp only [hm, Option.some.injEq] at h
        subst h
        intro i a ha
        cases i with
        | zero =>
          simp only [List.getElem?_cons_zero, Option.some.injEq] at ha
          subst ha
          exact ⟨b, List.getElem?_cons_zero, hfa⟩
        | succ j =>
          simp only [List.getElem?_cons_succ] at ha ⊢
          exact ih hm j a ha

theorem mapO_eq_map {f : α → Option β} {g : α → β} {l : List α} {l' : List β}
    (hg : ∀ a b, f a = some b → b = g a) (h : mapO f l = some l') :
    l' = l.map g := by
  induction l generalizing l' with
  | nil =>
    simp only [mapO, Option.some.injEq] at h
    subst h; rfl
  | cons a t ih =>
    simp only [mapO] at h
    cases hfa : f a with
    | none => simp [hfa] at h
    | some b =>
      simp only [hfa] at h
      cases hm : mapO f t with
      | none => simp [hm] at h
      | some t' =>
        simp only [hm, Option.some.injEq] at h
        subst h
        simp [hg a b hfa, ih hm]

theorem mapO_chain {f : α → Option β} {h2 : α → Option γ} {k : γ → β}
    {l : List α} {l' : List β}
    (hfh : ∀ a b, f a = some b → ∃ m, h2 a = some m ∧ b = k m)
    (h : mapO f l = some l') :
    ∃ ms, mapO h2 l = some ms ∧ l' = ms.map k := by
  induction l generalizing l' with
  | nil =>
    simp only [mapO, Option.some.injEq] at h
    subst h
    exact ⟨[], rfl, rfl⟩
  | cons a t ih =>
    simp only [mapO] at h
    cases hfa : f a with
    | none => simp [hfa] at h
    | some b =>
      simp only [hfa] at h
      cases hm : mapO f t with
      | none => simp [hm] at h
      | some t' =>
        simp only [hm, Option.some.injEq] at h
        subst h
        obtain ⟨m, hm2, hb⟩ := hfh a b hfa
        obtain ⟨ms, hms, ht'⟩ := ih hm
        exact ⟨m :: ms, by simp [mapO, hm2, hms], by simp [hb, ht']⟩

theorem mapO_isSome {f : α → Option β} {l : List α}
    (h : ∀ a ∈ l, (f a).isSome) : (mapO f l).isSome := by
  induction l with
  | nil => simp [mapO]
  | cons a t ih =>
    have ha := h a (by simp)
    cases hfa : f a with
    | none => simp [hfa] at ha
    | some b =>
      have ht := ih (fun x hx => h x (by simp [hx]))
      cases hm : mapO f t with
      | none => simp [hm] at ht
      | some t' => simp [mapO, hfa, hm]

theorem zipIdxFrom_length (n : Nat) (l : List α) :
    (zipIdxFrom n l).length = l.length := by
  induction l generalizing n with
  | nil => rfl
  | cons a t ih => simp [zipIdxFrom, ih]

theorem zipIdxFrom_append (n : Nat) (l₁ l₂ : List α) :
    zipIdxFrom n (l₁ ++ l₂) = zipIdxFrom n l₁ ++ zipIdxFrom (n + l₁.length) l₂ := by
  induction l₁ generalizing n with
  | nil => simp [zipIdxFrom]
  | cons a t ih =>
    have h1 : n + 1 + t.length = n + (t.length + 1) := by omega
    simp only [List.cons_append, zipIdxFrom, List.length_cons, List.append_eq]
    rw [ih (n + 1), h1]

theorem zipIdxFrom_map (n : Nat) (f : α → β) (l : List α) :
    zipIdxFrom n (l.map f) = (zipIdxFrom n l).map (fun p => (p.1, f p.2)) := by
  induction l generalizing n with
  | nil => rfl
  | cons a t ih => simp [zipIdxFrom, ih]

theorem zipIdxFrom_fst (n : Nat) (l : List α) :
    (zipIdxFrom n l).map Prod.fst = List.range' n l.length := by
  induction l generalizing n with
  | nil => rfl
  | cons a t ih => simp [zipIdxFrom, List.range', ih]

theorem zipIdxFrom_getElem? (n : Nat) (l : List α) (i : Nat) :
    (zipIdxFrom n l)[i]? = l[i]?.map (fun a => (n + i, a)) := by
  induction l generalizing n i with
  | nil => simp [zipIdxFrom]
  | cons a t ih =>
    cases i with
    | zero => simp [zipIdxFrom]
    | succ j =>
      simp only [zipIdxFrom, List.getElem?_cons_succ, ih (n + 1) j]
      have : n + 1 + j = n + (j + 1) := by omega
      rw [this]

/-! ## Characterization of the hotel-offer parser -/

/-- When the body of the inner offer loop succeeds, its row is exactly
`mkHotelRow` of the offer and its registry entry stores the row index, the
offer id, and the *original* offer value. -/
theorem parse_one_offer_eq {hn cc : Json} {i : Nat} {o : Json}
    {r : HotelRow} {e : Nat × Json × Json}
    (h : parse_one_offer hn cc i o = some (r, e)) :
    r = mkHotelRow hn cc i o ∧ e = (i, offerIdOf o, o) := by
  cases o with
  | obj fs =>
    simp only [parse_one_offer] at h
    split at h
    next rs hrs =>
      split at h
      next ds hds =>
        split at h
        next ps hps =>
          simp only [Option.some.injEq, Prod.mk.injEq] at h
          obtain ⟨h1, h2⟩ := h
          constructor
          · rw [← h1]
            simp [mkHotelRow, jGetD, hrs, hds, hps]
          · rw [← h2]
            simp [offerIdOf, jGetD]
        next => simp at h
      next => simp at h
    next => simp at h
  | null => simp [parse_one_offer] at h
  | bool b => simp [parse_one_offer] at h
  | num n => simp [parse_one_offer] at h
  | str s => simp [parse_one_offer] at h
  | arr l => simp [parse_one_offer] at h

/-- Successful runs of the inner offer loop produce exactly the
`mkHotelRow` rows and registry entries of the offers, indexed from
`start`. -/
theorem parse_offers_loop_eq {hn cc : Json} {start : Nat} {offs : List Json}
    {rows : List HotelRow} {es : List (Nat × Json × Json)}
    (h : parse_offers_loop hn cc start offs = some (rows, es)) :
    rows = (zipIdxFrom start offs).map (fun p => mkHotelRow hn cc p.1 p.2) ∧
    es = (zipIdxFrom start offs).map (fun p => (p.1, offerIdOf p.2, p.2)) := by
  induction offs generalizing start rows es with
  | nil =>
    simp only [parse_offers_loop, Option.some.injEq, Prod.mk.injEq] at h
    obtain ⟨h1, h2⟩ := h
    simp [zipIdxFrom, ← h1, ← h2]
  | cons o rest ih =>
    simp only [parse_offers_loop] at h
    split at h
    next row e hoe =>
      split at h
      next rows' es' hrest =>
        simp only [Option.some.injEq, Prod.mk.injEq] at h
        obtain ⟨h1, h2⟩ := h
        obtain ⟨hr, he⟩ := parse_one_offer_eq hoe
        obtain ⟨hr', he'⟩ := ih hrest
        subst h1 h2
        simp [zipIdxFrom, hr, he, hr', he']
      next => simp at h
    next => simp at h

/-- When the header of one hotel entry parses, the name and city code are
the `jGetD` chains of the entry and the offers are its `offers` list. -/
theorem hotelHeader_eq {h : Json} {hn cc : Json} {offs : List Json}
    (hh : hotelHeader h = some (hn, cc, offs)) :
    hn = jGetD (jGetD h "hotel" (.obj [])) "name" (.str "N/A") ∧
    cc = jGetD (jGetD h "hotel" (.obj [])) "cityCode" (.str "N/A") := by
  cases h with
  | obj hs =>
    simp only [hotelHeader] at hh
    split at hh
    next his hhis =>
      split at hh
      next offs' hoffs =>
        simp only [Option.some.injEq, Prod.mk.injEq] at hh
        obtain ⟨h1, h2, h3⟩ := hh
        simp [← h1, ← h2, jGetD, hhis]
      next => simp at hh
    next => simp at hh
  | null => simp [hotelHeader] at hh
  | bool b => simp [hotelHeader] at hh
  | num n => simp [hotelHeader] at hh
  | str s => simp [hotelHeader] at hh
  | arr l => simp [hotelHeader] at hh

/-- Successful runs of the outer hotel loop produce exactly the rows and
registry entries of the tagged offer list, indexed from `start`. -/
theorem parse_hotels_loop_eq {start : Nat} {hs : List Json}
    {rows : List HotelRow} {es : List (Nat × Json × Json)}
    (h : parse_hotels_loop start hs = some (rows, es)) :
    ∃ tagged, taggedOffers_loop hs = some tagged ∧
      rows = (zipIdxFrom start tagged).map
        (fun p => mkHotelRow p.2.1 p.2.2.1 p.1 p.2.2.2) ∧
      es = (zipIdxFrom start tagged).map
        (fun p => (p.1, offerIdOf p.2.2.2, p.2.2.2)) := by
  induction hs generalizing start rows es with
  | nil =>
    simp only [parse_hotels_loop, Option.some.injEq, Prod.mk.injEq] at h
    obtain ⟨h1, h2⟩ := h
    exact ⟨[], rfl, by simp [zipIdxFrom, ← h1], by simp [zipIdxFrom, ← h2]⟩
  | cons hh rest ih =>
    simp only [parse_hotels_loop] at h
    split at h
    next hn cc offs hhead =>
      split at h
      next rows1 es1 h1 =>
        split at h
        next rows2 es2 h2 =>
          simp only [Option.some.injEq, Prod.mk.injEq] at h
          obtain ⟨hr, he⟩ := h
          obtain ⟨t, ht, hr2, he2⟩ := ih h2
          obtain ⟨hr1, he1⟩ := parse_offers_loop_eq h1
          refine ⟨offs.map (fun o => (hn, cc, o)) ++ t, ?_, ?_, ?_⟩
          · simp [taggedOffers_loop, hhead, ht]
          · rw [← hr, zipIdxFrom_append, List.map_append, zipIdxFrom_map,
                List.map_map, List.length_map]
            rw [hr1, hr2]; rfl
          · rw [← he, zipIdxFrom_append, List.map_append, zipIdxFrom_map,
                List.map_map, List.length_map]
            rw [he1, he2]; rfl
        next => simp at h
      next => simp at h
    next => simp at h

/-- Characterization of `parse_hotel_offers`: on success, the rows are
exactly the `mkHotelRow`s of the tagged offers and the offer map is
exactly the registry entries `(i, (offerId, offer))`, both indexed from
0 in traversal order. -/
theorem parse_hotel_offers_eq {d : Json}
    {rows : List HotelRow} {es : List (Nat × Json × Json)}
    (h : parse_hotel_offers d = some (rows, es)) :
    ∃ tagged, taggedOffers d = some tagged ∧
      rows = (zipIdxFrom 0 tagged).map
        (fun p => mkHotelRow p.2.1 p.2.2.1 p.1 p.2.2.2) ∧
      es = (zipIdxFrom 0 tagged).map
        (fun p => (p.1, offerIdOf p.2.2.2, p.2.2.2)) := by
  cases d with
  | arr hs =>
    obtain ⟨t, ht, hr, he⟩ := parse_hotels_loop_eq (h : parse_hotels_loop 0 hs = some (rows, es))
    exact ⟨t, by simpa [taggedOffers] using ht, hr, he⟩
  | null => simp [parse_hotel_offers] at h
  | bool b => simp [parse_hotel_offers] at h
  | num n => simp [parse_hotel_offers] at h
  | str s => simp [parse_hotel_offers] at h
  | obj fs => simp [parse_hotel_offers] at h

/-! ## Characterization of the flight parser -/

/-- Each successfully parsed segment row is `mkFlightRow` of the segment. -/
theorem parse_segment_eq {tp : Json} {seg : Json} {r : FlightRow}
    (h : parse_segment tp seg = some r) : r = mkFlightRow tp seg := by
  cases seg with
  | obj ss =>
    simp only [parse_segment] at h
    split at h
    next dd aa hdd haa =>
      simp only [Option.some.injEq] at h
      rw [← h]
      simp [mkFlightRow, jGetD, hdd, haa]
    next => simp at h
  | null => simp [parse_segment] at h
  | bool b => simp [parse_segment] at h
  | num n => simp [parse_segment] at h
  | str s => simp [parse_segment] at h
  | arr l => simp [parse_segment] at h

/-- A successfully parsed itinerary yields exactly one `mkFlightRow` per
segment, in order. -/
theorem parse_itinerary_eq {tp : Json} {itin : Json} {rs : List FlightRow}
    (h : parse_itinerary tp itin = some rs) :
    ∃ segs, itinerary_segments itin = some segs ∧ rs = segs.map (mkFlightRow tp) := by
  cases itin with
  | obj its =>
    simp only [parse_itinerary] at h
    split at h
    next segs hsegs =>
      exact ⟨segs, by simp [itinerary_segments, hsegs],
             mapO_eq_map (fun a b hb => parse_segment_eq hb) h⟩
    next => simp at h
  | null => simp [parse_itinerary] at h
  | bool b => simp [parse_itinerary] at h
  | num n => simp [parse_itinerary] at h
  | str s => simp [parse_itinerary] at h
  | arr l => simp [parse_itinerary] at h

/-- A successfully parsed flight offer yields exactly one `mkFlightRow` per
segment across all its itineraries, every row carrying the offer-level
total price. -/
theorem parse_one_flight_offer_eq {offer : Json} {rs : List FlightRow}
    (h : parse_one_flight_offer offer = some rs) :
    ∃ segs, flight_segments offer = some segs ∧
      rs = segs.map (mkFlightRow (flightPriceOf offer)) := by
  cases offer with
  | obj fs =>
    simp only [parse_one_flight_offer] at h
    split at h
    next ps hps =>
      split at h
      next its hits =>
        split at h
        next rss hrss =>
          simp only [Option.some.injEq] at h
          obtain ⟨segss, hsegss, hrss2⟩ :=
            mapO_chain (fun a b hb => parse_itinerary_eq hb) hrss
          refine ⟨segss.flatten, ?_, ?_⟩
          · simp [flight_segments, hits, hsegss]
          · have hfp : flightPriceOf (.obj fs) = (ps.lookup "total").getD (.str "N/A") := by
              simp [flightPriceOf, jGetD, hps]
            rw [← h, hrss2, hfp, List.map_flatten]
        next => simp at h
      next => simp at h
    next => simp at h
  | null => simp [parse_one_flight_offer] at h
  | bool b => simp [parse_one_flight_offer] at h
  | num n => simp [parse_one_flight_offer] at h
  | str s => simp [parse_one_flight_offer] at h
  | arr l => simp [parse_one_flight_offer] at h

/-- Top-level structure of a successful `parse_flight_offers` run. -/
theorem parse_flight_offers_eq {d : Json} {rows : List FlightRow}
    (h : parse_flight_offers d = some rows) :
    ∃ offers rss, d = .arr offers ∧
      mapO parse_one_flight_offer offers = some rss ∧ rows = rss.flatten := by
  cases d with
  | arr offers =>
    simp only [parse_flight_offers] at h
    split at h
    next rss hrss =>
      simp only [Option.some.injEq] at h
      exact ⟨offers, rss, rfl, hrss, h.symm⟩
    next => simp at h
  | null => simp [parse_flight_offers] at h
  | bool b => simp [parse_flight_offers] at h
  | num n => simp [parse_flight_offers] at h
  | str s => simp [parse_flight_offers] at h
  | obj fs => simp [parse_flight_offers] at h

/-! ## Shape implies success -/

/-- An object-shaped value is an object. -/
theorem isObjJ_eq_true {j : Json} (h : isObjJ j = true) : ∃ fs, j = Json.obj fs := by
  cases j with
  | obj fs => exact ⟨fs, rfl⟩
  | null => simp [isObjJ] at h
  | bool b => simp [isObjJ] at h
  | num n => simp [isObjJ] at h
  | str s => simp [isObjJ] at h
  | arr l => simp [isObjJ] at h

/-- A shaped offer always parses. -/
theorem parse_one_offer_isSome {hn cc : Json} {i : Nat} {o : Json}
    (h : shapedOffer o = true) : (parse_one_offer hn cc i o).isSome := by
  cases o with
  | obj fs =>
    simp only [shapedOffer, Bool.and_eq_true] at h
    obtain ⟨⟨hroom, hdesc⟩, hprice⟩ := h
    obtain ⟨rs, hrs⟩ := isObjJ_eq_true hroom
    rw [hrs] at hdesc
    simp only [jGetD] at hdesc
    obtain ⟨ds, hds⟩ := isObjJ_eq_true hdesc
    obtain ⟨ps, hps⟩ := isObjJ_eq_true hprice
    simp [parse_one_offer, hrs, hds, hps]
  | null => simp [shapedOffer] at h
  | bool b => simp [shapedOffer] at h
  | num n => simp [shapedOffer] at h
  | str s => simp [shapedOffer] at h
  | arr l => simp [shapedOffer] at h

/-- The inner offer loop succeeds on any list of shaped offers. -/
theorem parse_offers_loop_isSome {hn cc : Json} {offs : List Json} :
    ∀ (start : Nat), (∀ o ∈ offs, shapedOffer o = true) →
      (parse_offers_loop hn cc start offs).isSome := by
  induction offs with
  | nil => intro start _; simp [parse_offers_loop]
  | cons o rest ih =>
    intro start h
    have h1 := @parse_one_offer_isSome hn cc start o (h o (by simp))
    cases hoe : parse_one_offer hn cc start o with
    | none => rw [hoe] at h1; simp at h1
    | some pe =>
      obtain ⟨row, e⟩ := pe
      have h2 := ih (start + 1) (fun x hx => h x (by simp [hx]))
      cases hrest : parse_offers_loop hn cc (start + 1) rest with
      | none => rw [hrest] at h2; simp at h2
      | some p => simp [parse_offers_loop, hoe, hrest]

/-- A shaped hotel entry has a parsable header whose offers are all
shaped. -/
theorem hotelHeader_of_shaped {h : Json} (hs : shapedHotel h = true) :
    ∃ hn cc offs, hotelHeader h = some (hn, cc, offs) ∧
      ∀ o ∈ offs, shapedOffer o = true := by
  cases h with
  | obj fields =>
    simp only [shapedHotel, Bool.and_eq_true] at hs
    obtain ⟨hhot, hoffs⟩ := hs
    obtain ⟨his, hhis⟩ := isObjJ_eq_true hhot
    cases hos : (fields.lookup "offers").getD (.arr []) with
    | arr offs =>
      rw [hos] at hoffs
      refine ⟨(his.lookup "name").getD (.str "N/A"),
              (his.lookup "cityCode").getD (.str "N/A"), offs, ?_, ?_⟩
      · simp [hotelHeader, hhis, hos]
      · intro o ho
        exact List.all_eq_true.mp hoffs o ho
    | null => rw [hos] at hoffs; simp at hoffs
    | bool b => rw [hos] at hoffs; simp at hoffs
    | num n => rw [hos] at hoffs; simp at hoffs
    | str s => rw [hos] at hoffs; simp at hoffs
    | obj f2 => rw [hos] at hoffs; simp at hoffs
  | null => simp [shapedHotel] at hs
  | bool b => simp [shapedHotel] at hs
  | num n => simp [shapedHotel] at hs
  | str s => simp [shapedHotel] at hs
  | arr l => simp [shapedHotel] at hs

/-- The outer hotel loop succeeds on any list of shaped hotel entries. -/
theorem parse_hotels_loop_isSome {hs : List Json} :
    ∀ (start : Nat), (∀ h ∈ hs, shapedHotel h = true) →
      (parse_hotels_loop start hs).isSome := by
  induction hs with
  | nil => intro start _; simp [parse_hotels_loop]
  | cons hh rest ih =>
    intro start h
    obtain ⟨hn, cc, offs, hhead, hallo⟩ := hotelHeader_of_shaped (h hh (by simp))
    have h1 := @parse_offers_loop_isSome hn cc offs start hallo
    cases h1o : parse_offers_loop hn cc start offs with
    | none => rw [h1o] at h1; simp at h1
    | some p1 =>
      obtain ⟨rows1, es1⟩ := p1
      have h2 := ih (start + offs.length) (fun x hx => h x (by simp [hx]))
      cases h2o : parse_hotels_loop (start + offs.length) rest with
      | none => rw [h2o] at h2; simp at h2
      | some p2 =>
        obtain ⟨rows2, es2⟩ := p2
        simp [parse_hotels_loop, hhead, h1o, h2o]

/-- A shaped hotel-offers input always parses: normalization never fails
on absent optional fields. -/
theorem parse_hotel_offers_isSome {d : Json}
    (h : shapedHotelsInput d = true) : (parse_hotel_offers d).isSome := by
  cases d with
  | arr hs =>
    exact parse_hotels_loop_isSome 0 (fun x hx => List.all_eq_true.mp h x hx)
  | null => simp [shapedHotelsInput] at h
  | bool b => simp [shapedHotelsInput] at h
  | num n => simp [shapedHotelsInput] at h
  | str s => simp [shapedHotelsInput] at h
  | obj fs => simp [shapedHotelsInput] at h

/-- A shaped segment always parses. -/
theorem parse_segment_isSome {tp : Json} {seg : Json}
    (h : shapedSegment seg = true) : (parse_segment tp seg).isSome := by
  cases seg with
  | obj ss =>
    simp only [shapedSegment, Bool.and_eq_true] at h
    obtain ⟨hdep, harr⟩ := h
    obtain ⟨dd, hdd⟩ := isObjJ_eq_true hdep
    obtain ⟨aa, haa⟩ := isObjJ_eq_true harr
    simp [parse_segment, hdd, haa]
  | null => simp [shapedSegment] at h
  | bool b => simp [shapedSegment] at h
  | num n => simp [shapedSegment] at h
  | str s => simp [shapedSegment] at h
  | arr l => simp [shapedSegment] at h

/-- A shaped itinerary always parses. -/
theorem parse_itinerary_isSome {tp : Json} {itin : Json}
    (h : shapedItinerary itin = true) : (parse_itinerary tp itin).isSome := by
  cases itin with
  | obj its =>
    simp only [shapedItinerary] at h
    cases hsg : (its.lookup "segments").getD (.arr []) with
    | arr segs =>
      rw [hsg] at h
      have := @mapO_isSome _ _ (parse_segment tp) segs
        (fun a ha => parse_segment_isSome (List.all_eq_true.mp h a ha))
      simp [parse_itinerary, hsg, this]
    | null => rw [hsg] at h; simp at h
    | bool b => rw [hsg] at h; simp at h
    | num n => rw [hsg] at h; simp at h
    | str s => rw [hsg] at h; simp at h
    | obj f2 => rw [hsg] at h; simp at h
  | null => simp [shapedItinerary] at h
  | bool b => simp [shapedItinerary] at h
  | num n => simp [shapedItinerary] at h
  | str s => simp [shapedItinerary] at h
  | arr l => simp [shapedItinerary] at h

/-- A shaped flight offer always parses. -/
theorem parse_one_flight_offer_isSome {offer : Json}
    (h : shapedFlightOffer offer = true) : (parse_one_flight_offer offer).isSome := by
  cases offer with
  | obj fs =>
    simp only [shapedFlightOffer, Bool.and_eq_true] at h
    obtain ⟨hprice, hits⟩ := h
    obtain ⟨ps, hps⟩ := isObjJ_eq_true hprice
    cases hio : (fs.lookup "itineraries").getD (.arr []) with
    | arr its =>
      rw [hio] at hits
      have hall := @mapO_isSome _ _ (parse_itinerary ((ps.lookup "total").getD (.str "N/A"))) its
        (fun a ha => parse_itinerary_isSome (List.all_eq_true.mp hits a ha))
      cases hm : mapO (parse_itinerary ((ps.lookup "total").getD (.str "N/A"))) its with
      | none => rw [hm] at hall; simp at hall
      | some rss => simp [parse_one_flight_offer, hps, hio, hm]
    | null => rw [hio] at hits; simp at hits
    | bool b => rw [hio] at hits; simp at hits
    | num n => rw [hio] at hits; simp at hits
    | str s => rw [hio] at hits; simp at hits
    | obj f2 => rw [hio] at hits; simp at hits
  | null => simp [shapedFlightOffer] at h
  | bool b => simp [shapedFlightOffer] at h
  | num n => simp [shapedFlightOffer] at h
  | str s => simp [shapedFlightOffer] at h
  | arr l => simp [shapedFlightOffer] at h

/-- A shaped flight-offers input always parses: normalization never fails
on absent optional fields. -/
theorem parse_flight_offers_isSome {d : Json}
    (h : shapedFlightsInput d = true) : (parse_flight_offers d).isSome := by
  cases d with
  | arr offers =>
    have hall := @mapO_isSome _ _ parse_one_flight_offer offers
      (fun a ha => parse_one_flight_offer_isSome (List.all_eq_true.mp h a ha))
    cases hm : mapO parse_one_flight_offer offers with
    | none => rw [hm] at hall; simp at hall
    | some rss => simp [parse_flight_offers, hm]
  | null => simp [shapedFlightsInput] at h
  | bool b => simp [shapedFlightsInput] at h
  | num n => simp [shapedFlightsInput] at h
  | str s => simp [shapedFlightsInput] at h
  | obj fs => simp [shapedFlightsInput] at h

/-! ## Sanitizer lemmas -/

/-- Stripping whitespace from both ends yields a sublist. -/
theorem stripChars_sublist (l : List Char) : (stripChars l).Sublist l := by
  unfold stripChars
  have h1 : (l.dropWhile Char.isWhitespace).Sublist l := List.dropWhile_sublist _
  have h2 : ((l.dropWhile Char.isWhitespace).reverse.dropWhile Char.isWhitespace).Sublist
      (l.dropWhile Char.isWhitespace).reverse := List.dropWhile_sublist _
  have h3 := h2.reverse
  rw [List.reverse_reverse] at h3
  exact h3.trans h1

/-- The sanitizer output is a sublist of the input: all surviving
characters appear in their original relative order. -/
theorem sanitize_sublist (s : String) : (sanitize_place_name s).data.Sublist s.data :=
  (List.filter_sublist _).trans (stripChars_sublist _)

/-- Stripping an all-whitespace character list yields the empty list. -/
theorem stripChars_of_all_whitespace {l : List Char}
    (h : ∀ c ∈ l, c.isWhitespace) : stripChars l = [] := by
  unfold stripChars
  rw [List.dropWhile_eq_nil_iff.mpr (fun x hx => h x hx)]
  rfl

/-- Sanitizing an empty or all-whitespace string yields the empty string. -/
theorem sanitize_of_all_whitespace {s : String}
    (h : ∀ c ∈ s.data, c.isWhitespace) : sanitize_place_name s = "" := by
  unfold sanitize_place_name
  rw [stripChars_of_all_whitespace h]
  rfl

/-! ## Association lists with consecutive keys -/

/-- Dict lookup on an association list whose keys are exactly
`s, s+1, ...` in order: a successful lookup is exactly a positional hit. -/
theorem lookup_of_fst_range' {β : Type} :
    ∀ (m : List (Nat × β)) (s k : Nat) (v : β),
      m.map Prod.fst = List.range' s m.length →
      (m.lookup k = some v ↔
        ∃ i, i < m.length ∧ k = s + i ∧ m[i]? = some (k, v)) := by
  intro m
  induction m with
  | nil => intro s k v _; simp
  | cons a rest ih =>
    intro s k v hmap
    obtain ⟨ak, ab⟩ := a
    simp only [List.map_cons, List.length_cons, List.range', List.cons.injEq] at hmap
    obtain ⟨hak, hrest⟩ := hmap
    subst hak
    by_cases hk : k = ak
    · subst hk
      constructor
      · intro hv
        simp only [List.lookup, BEq.refl] at hv
        simp only [Option.some.injEq] at hv
        exact ⟨0, by simp, by omega, by simp [← hv]⟩
      · rintro ⟨i, hi, hki, hgi⟩
        have hi0 : i = 0 := by omega
        subst hi0
        simp only [List.getElem?_cons_zero, Option.some.injEq, Prod.mk.injEq] at hgi
        simp [List.lookup, hgi.2]
    · have hbeq : (k == ak) = false := by simp [hk]
      constructor
      · intro hl
        simp only [List.lookup, hbeq] at hl
        obtain ⟨i', h1, h2, h3⟩ := (ih (ak + 1) k v hrest).mp hl
        exact ⟨i' + 1, by simp only [List.length_cons]; omega, by omega,
               by simpa using h3⟩
      · rintro ⟨i, hi, hki, hgi⟩
        cases i with
        | zero =>
          simp only [List.getElem?_cons_zero, Option.some.injEq, Prod.mk.injEq] at hgi
          exact absurd hgi.1.symm hk
        | succ i' =>
          simp only [List.getElem?_cons_succ] at hgi
          simp only [List.length_cons] at hi
          have := (ih (ak + 1) k v hrest).mpr ⟨i', by omega, by omega, hgi⟩
          simp [List.lookup, hbeq, this]

/-! ## Claims -/

/-- Claim C3 counterexample: the claim says the six characters are removed
and the *result* is then trimmed, so the returned value never starts or
ends with whitespace.  But `sanitize_place_name` trims *first* (line 49)
and removes the characters *afterwards* (line 50), so removing a brace can
expose outer whitespace: on the input `\x7b a \x7d` the result is `" a "`,
which starts (and ends) with a space. -/
theorem C3_counterexample :
    sanitize_place_name "\x7b a \x7d" = " a " ∧
    Char.isWhitespace (String.front " a ") = true := ⟨rfl, rfl⟩

/-- Claim C3 (amended): `sanitize_place_name` first trims leading/trailing
whitespace of the *input* and then removes exactly the characters
`" ' \x7b \x7d < >` anywhere; the result contains none of those characters
and preserves every other character of the trimmed input with its original
relative order (it is a sublist of the input), but it may itself begin or
end with whitespace that the removal exposed. -/
theorem C3_sanitize_amended (s : String) :
    (sanitize_place_name s).data = (stripChars s.data).filter (fun c => !(isBadChar c)) ∧
    (∀ c ∈ (sanitize_place_name s).data, isBadChar c = false) ∧
    (sanitize_place_name s).data.Sublist s.data ∧
    (∀ c, isBadChar c = false →
      (sanitize_place_name s).data.count c = (stripChars s.data).count c) := by
  have hdata : (sanitize_place_name s).data =
      (stripChars s.data).filter (fun c => !(isBadChar c)) := rfl
  refine ⟨hdata, ?_, sanitize_sublist s, ?_⟩
  · intro c hc
    rw [hdata] at hc
    have := (List.mem_filter.mp hc).2
    simpa using this
  · intro c hc
    rw [hdata]
    exact List.count_filter (by simp [hc])

/-- Witness for the amended claim C3 at the concrete input `" <ab> "`. -/
theorem C3_witness :
    (∀ c ∈ (sanitize_place_name " <ab> ").data, isBadChar c = false) ∧
    (sanitize_place_name " <ab> ").data.count 'a' = (stripChars " <ab> ".data).count 'a' :=
  ⟨(C3_sanitize_amended " <ab> ").2.1,
   (C3_sanitize_amended " <ab> ").2.2.2 'a' (by decide)⟩

/-- Claim C5: `book_hotel_offer` never raises past its boundary (its
result type is a plain value, covering both oracle outcomes): when the
booking service raises `ResponseError(msg)` it returns exactly the dict
`\x7b"error": str(msg)\x7d`, which carries the `"error"` key; on success it
returns the service data unchanged, so the `"error"` key distinguishes
failure whenever success payloads lack a top-level `"error"` key. -/
theorem C5_booking_returns_error_value (post : Json → Except String Json)
    (oid t p : Json) :
    (∀ msg, post (mkBookingPayload oid t p) = .error msg →
      book_hotel_offer post oid t p = .obj [("error", .str msg)] ∧
      hasErrorKey (book_hotel_offer post oid t p) = true) ∧
    (∀ d, post (mkBookingPayload oid t p) = .ok d →
      book_hotel_offer post oid t p = d ∧
      (hasErrorKey d = false → hasErrorKey (book_hotel_offer post oid t p) = false)) := by
  constructor
  · intro msg hm
    constructor
    · simp [book_hotel_offer, hm]
    · simp [book_hotel_offer, hm, hasErrorKey, List.lookup]
  · intro d hd
    constructor
    · simp [book_hotel_offer, hd]
    · intro hno
      simpa [book_hotel_offer, hd] using hno

/-- Witness for claim C5: a failing booking oracle yields the error dict. -/
theorem C5_witness :
    book_hotel_offer exPostFail (.str "OF1") .null .null =
      .obj [("error", .str "[500] transport error")] ∧
    hasErrorKey (book_hotel_offer exPostFail (.str "OF1") .null .null) = true :=
  (C5_booking_returns_error_value exPostFail (.str "OF1") .null .null).1
    "[500] transport error" rfl

/-- Claim C6 counterexample: the claim says looking up a row index that is
absent from the current registry — e.g. a stale index from a prior,
now-replaced registry — yields a well-defined NotFound value, never a
crash or exception.  But line 385 subscripts the dict
(`offers_map[selected_offer_idx]`), which *raises KeyError* on an absent
key (modelled `.error "KeyError"`): after the registry `exHotelMap`
(indices 0..2) is replaced by `exNewMap` (index 0 only), subscripting the
stale index 2 is the KeyError exception, not a NotFound value. -/
theorem C6_counterexample :
    (store_offers exSession exNewRows exNewMap).selected_hotel_offers_map = some exNewMap ∧
    exHotelMap.lookup 2 = some (.str "OF3", exOffer3) ∧
    offers_map_subscript exNewMap 2 = .error "KeyError" := ⟨rfl, rfl, rfl⟩

/-- Claim C6 (amended): after a new search replaces the registry, lookup
consults only the new registry: an index absent from it makes the
subscript on line 385 raise `KeyError` (modelled `.error "KeyError"`) even
if the index was present in the old registry — it never falls back to an
old entry — and a present index returns exactly its entry. -/
theorem C6_registry_lookup_amended (s : SessionState)
    (rows1 rows2 : List HotelRow) (m1 m2 : List (Nat × Json × Json)) (i : Nat) :
    (store_offers (store_offers s rows1 m1) rows2 m2).selected_hotel_offers_map = some m2 ∧
    (m2.lookup i = none → offers_map_subscript m2 i = .error "KeyError") ∧
    (∀ v, m2.lookup i = some v → offers_map_subscript m2 i = .ok v) := by
  refine ⟨rfl, ?_, ?_⟩
  · intro h; simp [offers_map_subscript, h]
  · intro v h; simp [offers_map_subscript, h]

/-- Witness for the amended claim C6 at the concrete replaced registry. -/
theorem C6_witness :
    offers_map_subscript exNewMap 2 = .error "KeyError" ∧
    offers_map_subscript exNewMap 0 = .ok (.str "OF9", exOffer3) :=
  ⟨(C6_registry_lookup_amended exSession exHotelRows exNewRows exHotelMap exNewMap 2).2.1 rfl,
   (C6_registry_lookup_amended exSession exHotelRows exNewRows exHotelMap exNewMap 0).2.2
     (.str "OF9", exOffer3) rfl⟩

/-- Claim C7: for every empty or whitespace-only place name,
`get_iata_code` returns `None` (NotFound) and issues no network call —
the result is `(none, [])` for *every* location-lookup oracle, the empty
trace recording that the service was never invoked. -/
theorem C7_resolver_empty_no_network_call
    (svc : String → String → Except String Json) (s sub : String)
    (h : ∀ c ∈ s.data, c.isWhitespace) :
    get_iata_code svc s sub = (none, []) := by
  simp [get_iata_code, sanitize_of_all_whitespace h]

/-- Witness for claim C7 at the whitespace-only input, with an oracle that
would have returned a usable code had it been called. -/
theorem C7_witness : get_iata_code exLocSvcGood "   " "CITY,AIRPORT" = (none, []) :=
  C7_resolver_empty_no_network_call exLocSvcGood "   " "CITY,AIRPORT" (by decide)

/-- Claim C8: a failed booking leaves the prior search state intact: the
booking action returns the error dict together with the *same* session
state `s` (it writes no session slot), and the offer-map entry used is
still queryable afterwards. -/
theorem C8_failed_booking_preserves_state (post : Json → Except String Json)
    (s : SessionState) (m : List (Nat × Json × Json)) (i : Nat)
    (oid raw t p : Json) (msg : String)
    (hm : s.selected_hotel_offers_map = some m)
    (hi : m.lookup i = some (oid, raw))
    (hfail : post (mkBookingPayload oid t p) = .error msg) :
    book_action post s i t p = .ok (.obj [("error", .str msg)], s) ∧
    offers_map_subscript m i = .ok (oid, raw) := by
  have hsub : offers_map_subscript m i = .ok (oid, raw) := by
    simp [offers_map_subscript, hi]
  refine ⟨?_, hsub⟩
  simp [book_action, hm, hsub, book_hotel_offer, hfail]

/-- Witness for claim C8: a transport-failing booking on the example
session returns the error dict and the unchanged session state. -/
theorem C8_witness :
    book_action exPostFail exSession 0 .null .null =
      .ok (.obj [("error", .str "[500] transport error")], exSession) ∧
    offers_map_subscript exHotelMap 0 = .ok (.str "OF1", exOffer1) :=
  C8_failed_booking_preserves_state exPostFail exSession exHotelMap 0
    (.str "OF1") exOffer1 .null .null "[500] transport error" rfl rfl rfl

/-- Claim C9: when the location service returns a non-empty result list
whose first element lacks an `"iataCode"` field, `get_iata_code` returns
`None` — it never falls back to a later result (the rest of the list is
arbitrary here, and may well contain a usable code). -/
theorem C9_first_result_without_code
    (svc : String → String → Except String Json) (s sub : String)
    (fs : List (String × Json)) (rest : List Json)
    (h1 : ¬ sanitize_place_name s = "")
    (h2 : svc (sanitize_place_name s) sub = .ok (.arr (.obj fs :: rest)))
    (h3 : fs.lookup "iataCode" = none) :
    get_iata_code svc s sub = (none, [(sanitize_place_name s, sub)]) := by
  simp [get_iata_code, h1, h2, h3]

/-- Witness for claim C9: the oracle's first result has no code while the
second has `"PAR"`; the resolver still answers `none` after one call. -/
theorem C9_witness :
    get_iata_code exLocSvc "Paris" "CITY,AIRPORT" = (none, [("Paris", "CITY,AIRPORT")]) :=
  C9_first_result_without_code exLocSvc "Paris" "CITY,AIRPORT"
    [("name", .str "Paris")] [.obj [("iataCode", .str "PAR")]]
    (by decide) rfl rfl

/-- Claim C1: for every hotel-offers input on which `parse_hotel_offers`
succeeds (i.e. every well-shaped H-hotel input with O₁..Oₕ offers),
it emits exactly one row per offer — `tagged` is the concatenation of the
per-hotel offers lists, so its length is Σoᵢ — with `Index` values exactly
`0..Σoᵢ-1` in increasing order (no gaps, no reuse), and an offer map with
exactly Σoᵢ entries whose entry at row index `i` stores that row's offer
id together with the original, unmodified raw offer value `o` itself. -/
theorem C1_hotel_rows_and_registry (d : Json) (rows : List HotelRow)
    (omap : List (Nat × Json × Json))
    (h : parse_hotel_offers d = some (rows, omap)) :
    ∃ tagged, taggedOffers d = some tagged ∧
      rows.length = tagged.length ∧
      omap.length = tagged.length ∧
      rows.map HotelRow.index = List.range tagged.length ∧
      omap.map Prod.fst = List.range tagged.length ∧
      ∀ (i : Nat) (hn cc o : Json), tagged[i]? = some (hn, cc, o) →
        rows[i]? = some (mkHotelRow hn cc i o) ∧
        omap[i]? = some (i, (mkHotelRow hn cc i o).offerId, o) := by
  obtain ⟨tagged, ht, hr, he⟩ := parse_hotel_offers_eq h
  have hcomp1 : (HotelRow.index ∘
      fun p : Nat × Json × Json × Json => mkHotelRow p.2.1 p.2.2.1 p.1 p.2.2.2) =
      (Prod.fst : Nat × Json × Json × Json → Nat) := rfl
  have hcomp2 : ((fun e : Nat × Json × Json => e.1) ∘
      fun p : Nat × Json × Json × Json => ((p.1, offerIdOf p.2.2.2, p.2.2.2) : Nat × Json × Json)) =
      (Prod.fst : Nat × Json × Json × Json → Nat) := rfl
  refine ⟨tagged, ht, ?_, ?_, ?_, ?_, ?_⟩
  · rw [hr, List.length_map, zipIdxFrom_length]
  · rw [he, List.length_map, zipIdxFrom_length]
  · rw [hr, List.map_map, List.range_eq_range', hcomp1, zipIdxFrom_fst]
  · rw [he, List.map_map, List.range_eq_range']
    rw [show (Prod.fst ∘
      fun p : Nat × Json × Json × Json => ((p.1, offerIdOf p.2.2.2, p.2.2.2) : Nat × Json × Json)) =
      (Prod.fst : Nat × Json × Json × Json → Nat) from rfl, zipIdxFrom_fst]
  · intro i hn cc o hi
    have hzi : (zipIdxFrom 0 tagged)[i]? = some (i, hn, cc, o) := by
      rw [zipIdxFrom_getElem?, hi]
      simp
    constructor
    · rw [hr, List.getElem?_map, hzi]
      rfl
    · rw [he, List.getElem?_map, hzi]
      rfl

/-- Witness for claim C1 at the concrete two-hotel input `exHotels`. -/
theorem C1_witness :
    ∃ tagged, taggedOffers exHotels = some tagged ∧
      exHotelRows.length = tagged.length ∧
      exHotelMap.length = tagged.length ∧
      exHotelRows.map HotelRow.index = List.range tagged.length ∧
      exHotelMap.map Prod.fst = List.range tagged.length ∧
      ∀ (i : Nat) (hn cc o : Json), tagged[i]? = some (hn, cc, o) →
        exHotelRows[i]? = some (mkHotelRow hn cc i o) ∧
        exHotelMap[i]? = some (i, (mkHotelRow hn cc i o).offerId, o) :=
  C1_hotel_rows_and_registry exHotels exHotelRows exHotelMap rfl

/-- Claim C2: whenever `parse_flight_offers` succeeds, each input offer
contributes exactly one row per segment across all its itineraries (its
block `rs` has length equal to its total segment count S), and every one
of those rows carries the offer-level total price unchanged. -/
theorem C2_flight_rows_share_offer_price (d : Json) (rows : List FlightRow)
    (h : parse_flight_offers d = some rows) :
    ∃ offers rss, d = .arr offers ∧
      mapO parse_one_flight_offer offers = some rss ∧
      rows = rss.flatten ∧
      ∀ (i : Nat) (offer : Json), offers[i]? = some offer →
        ∃ rs segs, rss[i]? = some rs ∧ flight_segments offer = some segs ∧
          rs.length = segs.length ∧
          ∀ r ∈ rs, r.totalPrice = flightPriceOf offer := by
  obtain ⟨offers, rss, hd, hm, hrows⟩ := parse_flight_offers_eq h
  refine ⟨offers, rss, hd, hm, hrows, ?_⟩
  intro i offer hoi
  obtain ⟨rs, hrsi, hparse⟩ := mapO_getElem? hm i offer hoi
  obtain ⟨segs, hsegs, hrs⟩ := parse_one_flight_offer_eq hparse
  refine ⟨rs, segs, hrsi, hsegs, ?_, ?_⟩
  · rw [hrs, List.length_map]
  · intro r hrmem
    rw [hrs] at hrmem
    obtain ⟨seg, _, hseg⟩ := List.mem_map.mp hrmem
    rw [← hseg]
    rfl

/-- Witness for claim C2 at the concrete input `exFlights` (one offer
priced 500.00 with 3 segments over 2 itineraries, hence 3 rows). -/
theorem C2_witness :
    ∃ offers rss, exFlights = .arr offers ∧
      mapO parse_one_flight_offer offers = some rss ∧
      exFlightRows = rss.flatten ∧
      ∀ (i : Nat) (offer : Json), offers[i]? = some offer →
        ∃ rs segs, rss[i]? = some rs ∧ flight_segments offer = some segs ∧
          rs.length = segs.length ∧
          ∀ r ∈ rs, r.totalPrice = flightPriceOf offer :=
  C2_flight_rows_share_offer_price exFlights exFlightRows rfl

/-- Claim C10: `parse_hotel_offers` registers an offer-map entry for every
emitted row (including rows whose offer id defaulted to "N/A"): the map's
key sequence equals the rows' `Index` sequence, dict lookup succeeds for
exactly the emitted row indices, and a successful lookup returns exactly
the `Offer ID` stored in the row with the same index. -/
theorem C10_registry_domain_matches_rows (d : Json) (rows : List HotelRow)
    (omap : List (Nat × Json × Json))
    (h : parse_hotel_offers d = some (rows, omap)) :
    omap.map Prod.fst = rows.map HotelRow.index ∧
    (∀ k : Nat, (omap.lookup k).isSome ↔ k ∈ rows.map HotelRow.index) ∧
    (∀ (k : Nat) (idj o : Json), omap.lookup k = some (idj, o) →
      ∃ r, rows[k]? = some r ∧ r.index = k ∧ r.offerId = idj) := by
  obtain ⟨tagged, ht, hr, he⟩ := parse_hotel_offers_eq h
  have hfst : omap.map Prod.fst = List.range' 0 tagged.length := by
    rw [he, List.map_map]
    rw [show (Prod.fst ∘
      fun p : Nat × Json × Json × Json => ((p.1, offerIdOf p.2.2.2, p.2.2.2) : Nat × Json × Json)) =
      (Prod.fst : Nat × Json × Json × Json → Nat) from rfl, zipIdxFrom_fst]
  have hidx : rows.map HotelRow.index = List.range' 0 tagged.length := by
    rw [hr, List.map_map]
    rw [show (HotelRow.index ∘
      fun p : Nat × Json × Json × Json => mkHotelRow p.2.1 p.2.2.1 p.1 p.2.2.2) =
      (Prod.fst : Nat × Json × Json × Json → Nat) from rfl, zipIdxFrom_fst]
  have hlen : omap.length = tagged.length := by
    rw [he, List.length_map, zipIdxFrom_length]
  have hkeys : omap.map Prod.fst = List.range' 0 omap.length := by
    rw [hfst, hlen]
  refine ⟨by rw [hfst, hidx], ?_, ?_⟩
  · intro k
    rw [hidx, ← List.range_eq_range', List.mem_range]
    constructor
    · intro hk
      obtain ⟨v, hv⟩ := Option.isSome_iff_exists.mp hk
      obtain ⟨i, hi, hk0, _⟩ := (lookup_of_fst_range' omap 0 k v hkeys).mp hv
      omega
    · intro hk
      have hkm : k < omap.length := by omega
      have htk : tagged[k]? = some tagged[k] := List.getElem?_eq_getElem (by omega)
      have homk : omap[k]? =
          some (k, offerIdOf (tagged[k]).2.2, (tagged[k]).2.2) := by
        rw [he, List.getElem?_map, zipIdxFrom_getElem?, htk]
        simp
      have hlk := (lookup_of_fst_range' omap 0 k
        (offerIdOf (tagged[k]).2.2, (tagged[k]).2.2) hkeys).mpr
        ⟨k, hkm, by omega, homk⟩
      simp [hlk]
  · intro k idj o hv
    obtain ⟨i, hi, hk0, hgi⟩ := (lookup_of_fst_range' omap 0 k (idj, o) hkeys).mp hv
    have hik : i = k := by omega
    subst hik
    rw [he, List.getElem?_map, zipIdxFrom_getElem?] at hgi
    cases htt : tagged[i]? with
    | none => rw [htt] at hgi; simp at hgi
    | some t =>
      rw [htt] at hgi
      simp only [Option.map_some', Option.some.injEq, Prod.mk.injEq, Nat.zero_add] at hgi
      obtain ⟨-, hid, ho⟩ := hgi
      refine ⟨mkHotelRow t.1 t.2.1 i t.2.2, ?_, rfl, by rw [← hid]; rfl⟩
      rw [hr, List.getElem?_map, zipIdxFrom_getElem?, htt]
      simp
/-- Witness for claim C10 at the concrete input `exHotels` (whose second
row has no offer id and registers the "N/A" sentinel). -/
theorem C10_witness :
    exHotelMap.map Prod.fst = exHotelRows.map HotelRow.index ∧
    (∀ k : Nat, (exHotelMap.lookup k).isSome ↔ k ∈ exHotelRows.map HotelRow.index) ∧
    (∀ (k : Nat) (idj o : Json), exHotelMap.lookup k = some (idj, o) →
      ∃ r, exHotelRows[k]? = some r ∧ r.index = k ∧ r.offerId = idj) :=
  C10_registry_domain_matches_rows exHotels exHotelRows exHotelMap rfl

/-- Claim C4 counterexample: the claim says *every* absent field —
explicitly including the room description — is substituted with the same
"not available" sentinel.  But line 145 defaults the room description to
the *empty string* while every other listed field defaults to `"N/A"`:
parsing a single hotel whose single offer is the empty dict yields a row
with `Room Type = "N/A"` but `Room Description = ""`, and `"" ≠ "N/A"`. -/
theorem C4_counterexample :
    parse_hotel_offers (.arr [.obj [("offers", .arr [.obj []])]]) =
      some ([mkHotelRow (.str "N/A") (.str "N/A") 0 (.obj [])],
            [(0, .str "N/A", .obj [])]) ∧
    (mkHotelRow (.str "N/A") (.str "N/A") 0 (.obj [])).roomType = .str "N/A" ∧
    (mkHotelRow (.str "N/A") (.str "N/A") 0 (.obj [])).roomDescription = .str "" ∧
    Json.str "" ≠ Json.str "N/A" := by
  refine ⟨rfl, rfl, rfl, ?_⟩
  intro hcon
  injection hcon with hs
  exact absurd hs (by decide)

/-- Claim C4 (amended): normalization never fails on absent optional
fields — any input whose present nested containers have the expected
dict/list shapes parses successfully however many optional fields are
absent — and each absent field is substituted in the row by its default:
`"N/A"` for price total, room type, offer id, check-in/check-out dates,
hotel name, city code, carrier, and the departure/arrival fields, but the
*empty string* (not `"N/A"`) for the room description. -/
theorem C4_missing_fields_amended :
    (∀ d, shapedHotelsInput d = true → (parse_hotel_offers d).isSome) ∧
    (∀ d, shapedFlightsInput d = true → (parse_flight_offers d).isSome) ∧
    (∀ (d : Json) (rows : List HotelRow) (omap : List (Nat × Json × Json))
       (tagged : List (Json × Json × Json)) (i : Nat) (hn cc o : Json),
       parse_hotel_offers d = some (rows, omap) → taggedOffers d = some tagged →
       tagged[i]? = some (hn, cc, o) → rows[i]? = some (mkHotelRow hn cc i o)) ∧
    (∀ (hn cc : Json) (i : Nat) (fs : List (String × Json)),
       (fs.lookup "id" = none → (mkHotelRow hn cc i (.obj fs)).offerId = .str "N/A") ∧
       (fs.lookup "room" = none → (mkHotelRow hn cc i (.obj fs)).roomType = .str "N/A" ∧
         (mkHotelRow hn cc i (.obj fs)).roomDescription = .str "") ∧
       (fs.lookup "price" = none → (mkHotelRow hn cc i (.obj fs)).totalPrice = .str "N/A") ∧
       (fs.lookup "checkInDate" = none → (mkHotelRow hn cc i (.obj fs)).checkIn = .str "N/A") ∧
       (fs.lookup "checkOutDate" = none → (mkHotelRow hn cc i (.obj fs)).checkOut = .str "N/A")) ∧
    (∀ (hs2 : List (String × Json)) (hn cc : Json) (offs : List Json),
       hotelHeader (.obj hs2) = some (hn, cc, offs) → hs2.lookup "hotel" = none →
       hn = .str "N/A" ∧ cc = .str "N/A") ∧
    (∀ (offer : Json) (rs : List FlightRow), parse_one_flight_offer offer = some rs →
       ∃ segs, flight_segments offer = some segs ∧
         rs = segs.map (mkFlightRow (flightPriceOf offer))) ∧
    (∀ (tp : Json) (ss : List (String × Json)),
       (ss.lookup "carrierCode" = none → (mkFlightRow tp (.obj ss)).airline = .str "N/A") ∧
       (ss.lookup "departure" = none →
         (mkFlightRow tp (.obj ss)).departureAirport = .str "N/A" ∧
         (mkFlightRow tp (.obj ss)).departureTime = .str "N/A") ∧
       (ss.lookup "arrival" = none →
         (mkFlightRow tp (.obj ss)).arrivalAirport = .str "N/A" ∧
         (mkFlightRow tp (.obj ss)).arrivalTime = .str "N/A")) ∧
    (∀ fs : List (String × Json), fs.lookup "price" = none →
       flightPriceOf (.obj fs) = .str "N/A") := by
  refine ⟨fun d hd => parse_hotel_offers_isSome hd,
          fun d hd => parse_flight_offers_isSome hd, ?_, ?_, ?_, ?_, ?_, ?_⟩
  · intro d rows omap tagged i hn cc o hp ht hi
    obtain ⟨t2, ht2, hr, _⟩ := parse_hotel_offers_eq hp
    rw [ht] at ht2
    injection ht2 with ht2
    subst ht2
    have hzi : (zipIdxFrom 0 tagged)[i]? = some (i, hn, cc, o) := by
      rw [zipIdxFrom_getElem?, hi]
      simp
    rw [hr, List.getElem?_map, hzi]
    rfl
  · intro hn cc i fs
    refine ⟨fun hid => ?_, fun hroom => ⟨?_, ?_⟩, fun hp => ?_, fun hin => ?_, fun hout => ?_⟩
    · simp [mkHotelRow, jGetD, hid]
    · simp [mkHotelRow, jGetD, hroom]
    · simp [mkHotelRow, jGetD, hroom]
    · simp [mkHotelRow, jGetD, hp]
    · simp [mkHotelRow, jGetD, hin]
    · simp [mkHotelRow, jGetD, hout]
  · intro hs2 hn cc offs hh hhot
    obtain ⟨h1, h2⟩ := hotelHeader_eq hh
    constructor
    · rw [h1]; simp [jGetD, hhot]
    · rw [h2]; simp [jGetD, hhot]
  · exact fun offer rs h => parse_one_flight_offer_eq h
  · intro tp ss
    refine ⟨fun hc => ?_, fun hd => ⟨?_, ?_⟩, fun ha => ⟨?_, ?_⟩⟩
    · simp [mkFlightRow, jGetD, hc]
    · simp [mkFlightRow, jGetD, hd]
    · simp [mkFlightRow, jGetD, hd]
    · simp [mkFlightRow, jGetD, ha]
    · simp [mkFlightRow, jGetD, ha]
  · intro fs hp
    simp [flightPriceOf, jGetD, hp]

/-- Witness for the amended claim C4 at concrete inputs: the shaped
examples parse, and the all-absent offer and segment receive their
per-field defaults. -/
theorem C4_witness :
    (parse_hotel_offers exHotels).isSome ∧
    (parse_flight_offers exFlights).isSome ∧
    ((mkHotelRow (.str "N/A") (.str "N/A") 1 (.obj [])).roomType = .str "N/A" ∧
     (mkHotelRow (.str "N/A") (.str "N/A") 1 (.obj [])).roomDescription = .str "") ∧
    (mkFlightRow (.str "500.00") (.obj [])).airline = .str "N/A" ∧
    flightPriceOf (.obj []) = .str "N/A" :=
  ⟨C4_missing_fields_amended.1 exHotels rfl,
   C4_missing_fields_amended.2.1 exFlights rfl,
   (C4_missing_fields_amended.2.2.2.1 (.str "N/A") (.str "N/A") 1 []).2.1 rfl,
   (C4_missing_fields_amended.2.2.2.2.2.2.1 (.str "500.00") []).1 rfl,
   C4_missing_fields_amended.2.2.2.2.2.2.2 [] rfl⟩
